import Mathlib

/-!
Verification of the self-service database provisioning service
(`src/provisioning_api.py`) against its natural-language specification.

The Python service is shallowly embedded as pure Lean functions over an
explicit `Store` state mirroring the two Postgres tables (`db_requests`,
`provisioned_databases`).  Nondeterministic inputs of the code — the
generated UUIDs, the 8-hex-char random suffix and `NOW()` timestamps —
are passed as explicit parameters.  `psycopg2` runs with
`autocommit = True` (see `ProvisioningService.connect`), so every single
SQL statement commits on its own; accordingly each SQL statement is one
atomic state transformation here, and the phases of `process_approval`
are exposed separately (`checkPhase` / `writePhase`) so that
interleavings of concurrent calls and failures between statements can be
examined.
-/

namespace Provisioning

/-- Pydantic model `DatabaseRequest`: the caller-supplied submission. -/
structure DatabaseRequest where
  team_name : String
  db_type : String
  environment : String
  size : String
  purpose : String
deriving DecidableEq, Repr

/-- Pydantic model `ApprovalAction`: the decide-call payload. -/
structure ApprovalAction where
  request_id : String
  action : String
  approver : String
  notes : Option String
deriving DecidableEq, Repr

/-- A row of the `db_requests` table (see `setup_tables`).  `status`
defaults to `"pending"`; timestamps are modelled as `Nat`, nullable
columns as `Option`. -/
structure Request where
  request_id : String
  team_name : String
  db_type : String
  environment : String
  size : String
  purpose : String
  status : String
  created_at : Nat
  approved_at : Option Nat
  provisioned_at : Option Nat
  approver : Option String
  approval_notes : Option String
deriving DecidableEq, Repr

/-- A row of the `provisioned_databases` table.  `DECIMAL(10,2)` costs
are modelled exactly as rationals. -/
structure ProvisionedDatabase where
  db_id : Nat
  request_id : String
  db_name : String
  db_type : String
  environment : String
  host : String
  port : Nat
  estimated_cost : ℚ
  status : String
  created_at : Nat
deriving DecidableEq, Repr

/-- The whole database state: both tables, plus the `SERIAL` counter
feeding `db_id`.  Rows are kept in insertion order. -/
structure Store where
  db_requests : List Request
  provisioned_databases : List ProvisionedDatabase
  next_db_id : Nat
deriving DecidableEq, Repr

/-- Errors surfaced by the service: `HTTPException(status_code, detail)`
raised in `process_approval`, and `crash` for the `TypeError` that
unpacking `cursor.fetchone()` of a missing row would raise in
`_provision_database`. -/
inductive ApiError where
  | httpException (status_code : Nat) (detail : String)
  | crash
deriving DecidableEq, Repr

/-- `cost_map` of `_provision_database`: size → monthly cost. -/
def cost_map : List (String × ℚ) := [("small", 50), ("medium", 150), ("large", 500)]

/-- `port_map` of `_provision_database`: db_type → port. -/
def port_map : List (String × Nat) := [("postgres", 5432), ("mysql", 3306), ("redis", 6379)]

/-- Python `dict.get(key, default)` on an association list. -/
def dictGet {α : Type} (m : List (String × α)) (k : String) (default : α) : α :=
  match m.find? (fun p => p.1 == k) with
  | some p => p.2
  | none => default

/-- The cost/port derivation of `_provision_database` as one pure
function of `(size, db_type)`:
`estimated_cost = cost_map.get(size, 100.00)`,
`port = port_map.get(db_type, 5432)`. -/
def derive (size db_type : String) : ℚ × Nat :=
  (dictGet cost_map size 100, dictGet port_map db_type 5432)

/-- SQL `UPDATE ... SET ... WHERE p`: rewrite every row satisfying `p`. -/
def updateWhere (p : Request → Bool) (f : Request → Request) (l : List Request) : List Request :=
  l.map fun r => if p r then f r else r

/-- The dict returned by `create_request`. -/
structure CreateResult where
  request_id : String
  status : String
  message : String
deriving DecidableEq, Repr

/-- `ProvisioningService.create_request`: INSERT a fresh row with
status `'pending'` (the generated `uuid4` id and `NOW()` are explicit
parameters) and return the confirmation dict. -/
def create_request (request : DatabaseRequest) (request_id : String) (now : Nat) (s : Store) :
    CreateResult × Store :=
  let r : Request :=
    { request_id := request_id, team_name := request.team_name, db_type := request.db_type,
      environment := request.environment, size := request.size, purpose := request.purpose,
      status := "pending", created_at := now,
      approved_at := none, provisioned_at := none, approver := none, approval_notes := none }
  ({ request_id := request_id, status := "pending",
     message := "Request submitted for approval" },
   { s with db_requests := s.db_requests ++ [r] })

/-- The row shape selected by `get_requests`. -/
structure RequestSummary where
  request_id : String
  team_name : String
  db_type : String
  environment : String
  size : String
  status : String
  created_at : Nat
  purpose : String
deriving DecidableEq, Repr

/-- Projection of a `db_requests` row onto the columns `get_requests`
selects. -/
def rowOf (r : Request) : RequestSummary :=
  { request_id := r.request_id, team_name := r.team_name, db_type := r.db_type,
    environment := r.environment, size := r.size, status := r.status,
    created_at := r.created_at, purpose := r.purpose }

/-- `ORDER BY created_at DESC`. -/
def orderByCreatedDesc (l : List Request) : List Request :=
  l.insertionSort (fun a b => b.created_at ≤ a.created_at)

/-- `ProvisioningService.get_requests`: `if status:` (Python truthiness —
`None` and the empty string both fall to the unfiltered branch) select
the rows with that status ordered by `created_at DESC` with no LIMIT,
else all rows ordered by `created_at DESC` with `LIMIT 50`.  Pure: the
store is not modified. -/
def get_requests (status : Option String) (s : Store) : List RequestSummary :=
  match status with
  | some st =>
    if st ≠ "" then
      (orderByCreatedDesc (s.db_requests.filter (fun r => r.status == st))).map rowOf
    else
      ((orderByCreatedDesc s.db_requests).take 50).map rowOf
  | none => ((orderByCreatedDesc s.db_requests).take 50).map rowOf

/-- The dict returned by `process_approval`. -/
structure DecideResult where
  request_id : String
  status : String
  message : String
deriving DecidableEq, Repr

/-- `ProvisioningService._provision_database` (called with the already
generated random hex suffix `hex8` and the `NOW()` timestamp): re-read
the request row, build
`db_name = f"{team}_{env}_{db_type}_{uuid.uuid4().hex[:8]}"`, derive
cost and port, INSERT the `provisioned_databases` row
(host `'db-cluster.example.com'`, status `'active'`), then UPDATE the
request to status `'provisioned'` with `provisioned_at = NOW()`.
Returns `none` when the row is missing (the Python unpacking of
`cursor.fetchone()` would crash). -/
def _provision_database (request_id : String) (hex8 : String) (now : Nat) (s : Store) :
    Option Store :=
  match s.db_requests.find? (fun r => r.request_id == request_id) with
  | none => none
  | some r =>
    let db_name := r.team_name ++ "_" ++ r.environment ++ "_" ++ r.db_type ++ "_" ++ hex8
    let estimated_cost := dictGet cost_map r.size 100
    let port := dictGet port_map r.db_type 5432
    let newdb : ProvisionedDatabase :=
      { db_id := s.next_db_id, request_id := request_id, db_name := db_name,
        db_type := r.db_type, environment := r.environment,
        host := "db-cluster.example.com", port := port,
        estimated_cost := estimated_cost, status := "active", created_at := now }
    let s1 : Store :=
      { s with provisioned_databases := s.provisioned_databases ++ [newdb],
               next_db_id := s.next_db_id + 1 }
    let reqs2 := updateWhere (fun r => r.request_id == request_id)
      (fun r => { r with status := "provisioned", provisioned_at := some now })
      s1.db_requests
    some { s1 with db_requests := reqs2 }

/-- Lines 150–166 of `process_approval`: SELECT the request's status;
404 `"Request not found"` when the row is missing, 400
`"Request already {status}"` when the status is not `'pending'`. -/
def checkPhase (request_id : String) (s : Store) : Except ApiError Unit :=
  match s.db_requests.find? (fun r => r.request_id == request_id) with
  | none => Except.error (ApiError.httpException 404 "Request not found")
  | some r =>
    if r.status ≠ "pending" then
      Except.error (ApiError.httpException 400 ("Request already " ++ r.status))
    else Except.ok ()

/-- Lines 168–189 of `process_approval`: set
`new_status = 'approved' if action == 'approve' else 'rejected'`, UPDATE
the row with the new status, approver, notes and `approved_at = NOW()`,
provision when the action is `'approve'`, and return the confirmation
dict carrying `new_status`. -/
def writePhase (approval : ApprovalAction) (hex8 : String) (now : Nat) (s : Store) :
    Except ApiError DecideResult × Store :=
  let new_status := if approval.action == "approve" then "approved" else "rejected"
  let reqs1 := updateWhere (fun r => r.request_id == approval.request_id)
    (fun r => { r with status := new_status, approver := some approval.approver,
                       approval_notes := approval.notes, approved_at := some now })
    s.db_requests
  let s1 : Store := { s with db_requests := reqs1 }
  if approval.action == "approve" then
    match _provision_database approval.request_id hex8 now s1 with
    | some s2 =>
      (Except.ok { request_id := approval.request_id, status := new_status,
                   message := "Request " ++ new_status ++ " successfully" }, s2)
    | none => (Except.error ApiError.crash, s1)
  else
    (Except.ok { request_id := approval.request_id, status := new_status,
                 message := "Request " ++ new_status ++ " successfully" }, s1)

/-- `ProvisioningService.process_approval`: the precondition check
followed by the write phase.  A raised `HTTPException` leaves the store
untouched. -/
def process_approval (approval : ApprovalAction) (hex8 : String) (now : Nat) (s : Store) :
    Except ApiError DecideResult × Store :=
  match checkPhase approval.request_id s with
  | Except.error e => (Except.error e, s)
  | Except.ok _ => writePhase approval hex8 now s

/-- The per-row invariant of §3 of the spec: status is one of the four
lifecycle states, `approved_at` is non-null iff the request has been
decided, `provisioned_at` is non-null iff it is provisioned. -/
def reqInvariant (r : Request) : Prop :=
  (r.status = "pending" ∨ r.status = "approved" ∨ r.status = "rejected" ∨
    r.status = "provisioned") ∧
  (r.approved_at ≠ none ↔
    (r.status = "approved" ∨ r.status = "rejected" ∨ r.status = "provisioned")) ∧
  (r.provisioned_at ≠ none ↔ r.status = "provisioned")

instance (r : Request) : Decidable (reqInvariant r) := by
  unfold reqInvariant; infer_instance

/-- The invariant over every stored request. -/
def storeInvariant (s : Store) : Prop :=
  ∀ r ∈ s.db_requests, reqInvariant r

instance (s : Store) : Decidable (storeInvariant s) := by
  unfold storeInvariant; infer_instance

/-- Every character of the string is a hexadecimal digit. -/
def isHexString (str : String) : Prop :=
  ∀ c ∈ str.data, c ∈ "0123456789abcdef".data

instance (str : String) : Decidable (isHexString str) := by
  unfold isHexString; infer_instance

/-! ### Helper lemmas about the embedding -/

/-- The row update performed by the UPDATE statement of
`process_approval` (lines 170–175). -/
def decisionUpd (a : ApprovalAction) (now : Nat) (r : Request) : Request :=
  { r with status := if a.action == "approve" then "approved" else "rejected",
           approver := some a.approver, approval_notes := a.notes,
           approved_at := some now }

/-- The row update performed by the final UPDATE statement of
`_provision_database` (lines 231–235). -/
def provisionUpd (now : Nat) (r : Request) : Request :=
  { r with status := "provisioned", provisioned_at := some now }

/-- The `provisioned_databases` row inserted by `_provision_database`
when the re-read request row has the fields of `r`. -/
def newDbRecord (a : ApprovalAction) (hex8 : String) (now : Nat) (s : Store) (r : Request) :
    ProvisionedDatabase :=
  { db_id := s.next_db_id, request_id := a.request_id,
    db_name := r.team_name ++ "_" ++ r.environment ++ "_" ++ r.db_type ++ "_" ++ hex8,
    db_type := r.db_type, environment := r.environment,
    host := "db-cluster.example.com",
    port := dictGet port_map r.db_type 5432,
    estimated_cost := dictGet cost_map r.size 100,
    status := "active", created_at := now }

/-- `_provision_database` cut off after its INSERT statement: the store
once the `provisioned_databases` row is committed but the final
`UPDATE db_requests` has not run.  `connect` sets
`self.conn.autocommit = True`, so the INSERT commits on its own and this
state is durable when the subsequent UPDATE statement fails. -/
def provisionInsertOnly (request_id : String) (hex8 : String) (now : Nat) (s : Store) :
    Option Store :=
  match s.db_requests.find? (fun r => r.request_id == request_id) with
  | none => none
  | some r =>
    let db_name := r.team_name ++ "_" ++ r.environment ++ "_" ++ r.db_type ++ "_" ++ hex8
    let estimated_cost := dictGet cost_map r.size 100
    let port := dictGet port_map r.db_type 5432
    let newdb : ProvisionedDatabase :=
      { db_id := s.next_db_id, request_id := request_id, db_name := db_name,
        db_type := r.db_type, environment := r.environment,
        host := "db-cluster.example.com", port := port,
        estimated_cost := estimated_cost, status := "active", created_at := now }
    some { s with provisioned_databases := s.provisioned_databases ++ [newdb],
                  next_db_id := s.next_db_id + 1 }

/-- The final UPDATE statement of `_provision_database` on its own. -/
def provisionUpdateStep (request_id : String) (now : Nat) (s : Store) : Store :=
  let reqs := updateWhere (fun x => x.request_id == request_id)
    (fun r => { r with status := "provisioned", provisioned_at := some now })
    s.db_requests
  { s with db_requests := reqs }

/-- The cross-table consistency property of the spec (§3, §7): a
provisioned request has a linked `provisioned_databases` row, and every
`provisioned_databases` row points at a provisioned request. -/
def provisioningConsistent (s : Store) : Prop :=
  (∀ r ∈ s.db_requests, r.status = "provisioned" →
    ∃ d ∈ s.provisioned_databases, d.request_id = r.request_id) ∧
  (∀ d ∈ s.provisioned_databases, ∀ r ∈ s.db_requests,
    r.request_id = d.request_id → r.status = "provisioned")

instance (s : Store) : Decidable (provisioningConsistent s) := by
  unfold provisioningConsistent; infer_instance

/-- A summary list ordered most-recently-created first. -/
def sortedDesc (l : List RequestSummary) : Prop :=
  l.Sorted (fun a b => b.created_at ≤ a.created_at)

instance : IsTotal Request (fun a b => b.created_at ≤ a.created_at) :=
  ⟨fun _ _ => Nat.le_total _ _⟩

instance : IsTrans Request (fun a b => b.created_at ≤ a.created_at) :=
  ⟨fun _ _ _ hab hbc => le_trans hbc hab⟩

/-- A concrete pending request (the end-to-end scenario of §8). -/
def req0 : Request :=
  { request_id := "r1", team_name := "data-eng", db_type := "postgres",
    environment := "prod", size := "large", purpose := "x", status := "pending",
    created_at := 0, approved_at := none, provisioned_at := none,
    approver := none, approval_notes := none }

/-- A store holding the single pending request `req0`. -/
def store0 : Store := { db_requests := [req0], provisioned_databases := [], next_db_id := 1 }

/-- A decide-call payload on `req0` with the given action. -/
def appr0 (a : String) : ApprovalAction :=
  { request_id := "r1", action := a, approver := "a@b.com", notes := none }

/-- `req0` after the approval UPDATE of `process_approval`. -/
def req0Approved : Request :=
  { req0 with status := "approved", approver := some "a@b.com",
              approval_notes := none, approved_at := some 5 }

/-- `store0` after the approval UPDATE of `process_approval` (the state
in which `_provision_database` is invoked). -/
def storeApproved : Store :=
  { db_requests := [req0Approved], provisioned_databases := [], next_db_id := 1 }

/-- `storeApproved` after `_provision_database`'s INSERT committed but
with the final UPDATE missing: the partially-provisioned state. -/
def storeBad : Store :=
  { db_requests := storeApproved.db_requests,
    provisioned_databases :=
      [{ db_id := 1, request_id := "r1", db_name := "data-eng_prod_postgres_deadbeef",
         db_type := "postgres", environment := "prod", host := "db-cluster.example.com",
         port := 5432, estimated_cost := 500, status := "active", created_at := 5 }],
    next_db_id := 2 }

theorem find?_updateWhere (p : Request → Bool) (f : Request → Request)
    (hf : ∀ r, p r = true → p (f r) = true) :
    ∀ l : List Request, (updateWhere p f l).find? p = (l.find? p).map f := by
  intro l
  induction l with
  | nil => rfl
  | cons a l ih =>
    cases h : p a with
    | true => simp [updateWhere, List.find?_cons, h, hf a h]
    | false => simpa [updateWhere, List.find?_cons, h] using ih

theorem mem_updateWhere (p : Request → Bool) (f : Request → Request) (l : List Request) :
    ∀ x ∈ updateWhere p f l, ∃ y ∈ l, x = if p y then f y else y := by
  intro x hx
  simp only [updateWhere, List.mem_map] at hx
  obtain ⟨y, hy, hye⟩ := hx
  exact ⟨y, hy, hye.symm⟩

theorem forall_updateWhere {Q : Request → Prop} (p : Request → Bool) (f : Request → Request)
    (l : List Request)
    (h1 : ∀ r ∈ l, p r = true → Q (f r)) (h2 : ∀ r ∈ l, p r = false → Q r) :
    ∀ x ∈ updateWhere p f l, Q x := by
  intro x hx
  obtain ⟨y, hy, hye⟩ := mem_updateWhere p f l x hx
  cases h : p y with
  | true => rw [h] at hye; simp at hye; exact hye ▸ h1 y hy h
  | false => rw [h] at hye; simp at hye; exact hye ▸ h2 y hy h

theorem mem_updateWhere_cases (p : Request → Bool) (f : Request → Request) (l : List Request) :
    ∀ x ∈ updateWhere p f l,
      (∃ y ∈ l, p y = true ∧ x = f y) ∨ (∃ y ∈ l, p y = false ∧ x = y) := by
  intro x hx
  obtain ⟨y, hy, hye⟩ := mem_updateWhere p f l x hx
  cases hpy : p y with
  | true => exact Or.inl ⟨y, hy, hpy, by rw [hpy] at hye; simpa using hye⟩
  | false => exact Or.inr ⟨y, hy, hpy, by rw [hpy] at hye; simpa using hye⟩

/-- `process_approval` on a found pending request with an `'approve'`
action: result and full final store. -/
theorem process_approval_approve_eq (a : ApprovalAction) (hex8 : String) (now : Nat)
    (s : Store) (r : Request)
    (hfind : s.db_requests.find? (fun x => x.request_id == a.request_id) = some r)
    (hpend : r.status = "pending") (hact : a.action = "approve") :
    process_approval a hex8 now s =
      (Except.ok { request_id := a.request_id, status := "approved",
                   message := "Request approved successfully" },
       { db_requests :=
           updateWhere (fun x => x.request_id == a.request_id) (provisionUpd now)
             (updateWhere (fun x => x.request_id == a.request_id) (decisionUpd a now)
               s.db_requests),
         provisioned_databases := s.provisioned_databases ++ [newDbRecord a hex8 now s r],
         next_db_id := s.next_db_id + 1 }) := by
  have hbeq : (a.action == "approve") = true := by simp [hact]
  have hfind1 :
      List.find? (fun x => x.request_id == a.request_id)
        (updateWhere (fun x => x.request_id == a.request_id)
          (fun x => { x with status := "approved", approver := some a.approver,
                             approval_notes := a.notes, approved_at := some now })
          s.db_requests) =
      some { r with status := "approved", approver := some a.approver,
                    approval_notes := a.notes, approved_at := some now } := by
    rw [find?_updateWhere (fun x => x.request_id == a.request_id)
      (fun x => { x with status := "approved", approver := some a.approver,
                         approval_notes := a.notes, approved_at := some now })
      (fun x h => h) s.db_requests, hfind]
    rfl
  unfold process_approval checkPhase writePhase _provision_database
  rw [hfind]
  simp only [hpend, hbeq, ne_eq, not_true_eq_false, if_false, if_true, ite_true, ite_false]
  rw [hfind1]
  simp [decisionUpd, provisionUpd, newDbRecord, hbeq, updateWhere]

/-- `process_approval` on a found pending request with an action other
than `'approve'`: result and full final store. -/
theorem process_approval_reject_eq (a : ApprovalAction) (hex8 : String) (now : Nat)
    (s : Store) (r : Request)
    (hfind : s.db_requests.find? (fun x => x.request_id == a.request_id) = some r)
    (hpend : r.status = "pending") (hact : a.action ≠ "approve") :
    process_approval a hex8 now s =
      (Except.ok { request_id := a.request_id, status := "rejected",
                   message := "Request rejected successfully" },
       { db_requests :=
           updateWhere (fun x => x.request_id == a.request_id) (decisionUpd a now)
             s.db_requests,
         provisioned_databases := s.provisioned_databases,
         next_db_id := s.next_db_id }) := by
  have hbeq : (a.action == "approve") = false := by simp [hact]
  unfold process_approval checkPhase writePhase
  simp only [hfind, hpend, hbeq]
  simp [decisionUpd, hbeq, updateWhere]

/-- `_provision_database` is exactly its INSERT step followed by its
UPDATE step: the two SQL statements in source order. -/
theorem provision_insert_then_update (request_id hex8 : String) (now : Nat) (s : Store) :
    _provision_database request_id hex8 now s =
      (provisionInsertOnly request_id hex8 now s).map (provisionUpdateStep request_id now) := by
  unfold _provision_database provisionInsertOnly provisionUpdateStep
  cases h : s.db_requests.find? (fun r => r.request_id == request_id) <;> simp

/-- `process_approval` succeeds only when the request row is found and
its status is `'pending'`. -/
theorem process_approval_ok_pending (a : ApprovalAction) (hex8 : String) (now : Nat)
    (s : Store) (res : DecideResult)
    (hok : (process_approval a hex8 now s).1 = Except.ok res) :
    ∃ r, s.db_requests.find? (fun x => x.request_id == a.request_id) = some r ∧
      r.status = "pending" := by
  unfold process_approval checkPhase at hok
  cases hfind : s.db_requests.find? (fun x => x.request_id == a.request_id) with
  | none => rw [hfind] at hok; simp at hok
  | some r =>
    rw [hfind] at hok
    by_cases hst : r.status = "pending"
    · exact ⟨r, rfl, hst⟩
    · simp [hst] at hok

/-! ### Claim theorems -/

/-- C1 (counterexample): as stated the claim is false — on a pending
request, decide with action `approve` stores status `'provisioned'`,
but the `status` field of the value returned to the caller is
`'approved'`, not `'provisioned'`. -/
theorem decide_approve_reports_approved_counterexample :
    (process_approval (appr0 "approve") "deadbeef" 5 store0).1 =
      Except.ok { request_id := "r1", status := "approved",
                  message := "Request approved successfully" } ∧
    (process_approval (appr0 "approve") "deadbeef" 5 store0).2.db_requests.map
      Request.status = ["provisioned"] ∧
    ("approved" : String) ≠ "provisioned" :=
  ⟨rfl, rfl, by decide⟩

/-- C1 (amended): for every decide call with action `approve` on an
existing pending request, the operation stores status `'provisioned'`
on the request, while the `status` field of the value returned to the
caller is `'approved'` (the stale pre-provisioning status). -/
theorem decide_approve_stores_provisioned_reports_approved
    (a : ApprovalAction) (hex8 : String) (now : Nat) (s : Store) (r : Request)
    (hfind : s.db_requests.find? (fun x => x.request_id == a.request_id) = some r)
    (hpend : r.status = "pending") (hact : a.action = "approve") :
    (process_approval a hex8 now s).1 =
      Except.ok { request_id := a.request_id, status := "approved",
                  message := "Request approved successfully" } ∧
    ∀ r' ∈ (process_approval a hex8 now s).2.db_requests,
      r'.request_id = a.request_id → r'.status = "provisioned" := by
  rw [process_approval_approve_eq a hex8 now s r hfind hpend hact]
  refine ⟨rfl, ?_⟩
  apply forall_updateWhere
  · intro x _ _ _
    rfl
  · intro x _ hpx hid
    rw [hid] at hpx
    simp at hpx

/-- C1 witness: the amended theorem at the concrete pending request. -/
theorem decide_approve_stores_provisioned_reports_approved_witness :
    (process_approval (appr0 "approve") "deadbeef" 5 store0).1 =
      Except.ok { request_id := "r1", status := "approved",
                  message := "Request approved successfully" } ∧
    ∀ r' ∈ (process_approval (appr0 "approve") "deadbeef" 5 store0).2.db_requests,
      r'.request_id = "r1" → r'.status = "provisioned" :=
  decide_approve_stores_provisioned_reports_approved (appr0 "approve") "deadbeef" 5 store0
    req0 (by decide) (by decide) (by decide)

/-- C2: the code does not serialize the pending check against the write
phase.  Each SQL statement commits individually (`autocommit = True`),
so two concurrent decide calls on the same pending request can both run
the status check (lines 150–166) before either runs the write phase
(lines 168–181).  In that interleaving both calls succeed and two
provisioning side effects occur, contradicting exactly-one-success:
both check phases pass on `store0`, then both write phases return
success and the final store holds two `provisioned_databases` rows for
request `r1`. -/
theorem concurrent_decide_double_provision :
    checkPhase "r1" store0 = Except.ok () ∧
    (writePhase (appr0 "approve") "aaaaaaaa" 5 store0).1 =
      Except.ok { request_id := "r1", status := "approved",
                  message := "Request approved successfully" } ∧
    (writePhase (appr0 "approve") "bbbbbbbb" 6
        (writePhase (appr0 "approve") "aaaaaaaa" 5 store0).2).1 =
      Except.ok { request_id := "r1", status := "approved",
                  message := "Request approved successfully" } ∧
    ((writePhase (appr0 "approve") "bbbbbbbb" 6
        (writePhase (appr0 "approve") "aaaaaaaa" 5 store0).2).2.provisioned_databases.map
      ProvisionedDatabase.request_id) = ["r1", "r1"] :=
  ⟨rfl, rfl, rfl, rfl⟩

/-- C3: the two provisioning writes are not atomic.  `_provision_database`
is the INSERT statement followed by the UPDATE statement, each committing
on its own; if the UPDATE fails after the INSERT committed, the store is
left with a `provisioned_databases` row whose request still has status
`'approved'` — a reachable state the claim says must not exist. -/
theorem provisioning_partial_write_inconsistency :
    updateWhere (fun x => x.request_id == (appr0 "approve").request_id)
      (decisionUpd (appr0 "approve") 5) store0.db_requests = storeApproved.db_requests ∧
    _provision_database "r1" "deadbeef" 5 storeApproved =
      (provisionInsertOnly "r1" "deadbeef" 5 storeApproved).map (provisionUpdateStep "r1" 5) ∧
    provisionInsertOnly "r1" "deadbeef" 5 storeApproved = some storeBad ∧
    storeBad.provisioned_databases.map ProvisionedDatabase.request_id = ["r1"] ∧
    storeBad.db_requests.map Request.status = ["approved"] ∧
    ¬ provisioningConsistent storeBad :=
  ⟨rfl, provision_insert_then_update "r1" "deadbeef" 5 storeApproved, rfl, rfl, rfl,
   by decide⟩

/-- C7: decide on an id matching no stored request fails with the 404
`"Request not found"` error and returns the store completely unchanged. -/
theorem decide_unknown_id_not_found (a : ApprovalAction) (hex8 : String) (now : Nat)
    (s : Store)
    (habs : ∀ r ∈ s.db_requests, r.request_id ≠ a.request_id) :
    process_approval a hex8 now s =
      (Except.error (ApiError.httpException 404 "Request not found"), s) := by
  have hfind : s.db_requests.find? (fun x => x.request_id == a.request_id) = none := by
    rw [List.find?_eq_none]
    intro x hx
    simp [habs x hx]
  unfold process_approval checkPhase
  rw [hfind]

/-- C6: the cost/port derivation is a pure function of `(size, db_type)`
realising exactly the fixed tables: cost 50/150/500 for
small/medium/large and 100 otherwise; port 5432/3306/6379 for
postgres/mysql/redis and 5432 otherwise; in particular
`derive "large" "postgres" = (500, 5432)` and
`derive "xlarge" "mongo" = (100, 5432)`. -/
theorem derive_cost_port_table :
    (∀ t, (derive "small" t).1 = 50) ∧
    (∀ t, (derive "medium" t).1 = 150) ∧
    (∀ t, (derive "large" t).1 = 500) ∧
    (∀ sz t, sz ≠ "small" → sz ≠ "medium" → sz ≠ "large" → (derive sz t).1 = 100) ∧
    (∀ sz, (derive sz "postgres").2 = 5432) ∧
    (∀ sz, (derive sz "mysql").2 = 3306) ∧
    (∀ sz, (derive sz "redis").2 = 6379) ∧
    (∀ sz t, t ≠ "postgres" → t ≠ "mysql" → t ≠ "redis" → (derive sz t).2 = 5432) ∧
    derive "large" "postgres" = (500, 5432) ∧
    derive "xlarge" "mongo" = (100, 5432) := by
  refine ⟨fun _ => rfl, fun _ => rfl, fun _ => rfl, ?_, fun _ => rfl, fun _ => rfl,
    fun _ => rfl, ?_, rfl, rfl⟩
  · intro sz t h1 h2 h3
    have e1 : (("small" : String) == sz) = false := beq_eq_false_iff_ne.mpr (Ne.symm h1)
    have e2 : (("medium" : String) == sz) = false := beq_eq_false_iff_ne.mpr (Ne.symm h2)
    have e3 : (("large" : String) == sz) = false := beq_eq_false_iff_ne.mpr (Ne.symm h3)
    simp [derive, dictGet, cost_map, List.find?, e1, e2, e3]
  · intro sz t h1 h2 h3
    have e1 : (("postgres" : String) == t) = false := beq_eq_false_iff_ne.mpr (Ne.symm h1)
    have e2 : (("mysql" : String) == t) = false := beq_eq_false_iff_ne.mpr (Ne.symm h2)
    have e3 : (("redis" : String) == t) = false := beq_eq_false_iff_ne.mpr (Ne.symm h3)
    simp [derive, dictGet, port_map, List.find?, e1, e2, e3]

/-- C6 witness: the default rows of the tables at a size and db_type
outside the fixed keys. -/
theorem derive_cost_port_table_witness :
    (derive "xlarge" "mongo").1 = 100 ∧ (derive "xlarge" "mongo").2 = 5432 :=
  ⟨derive_cost_port_table.2.2.2.1 "xlarge" "mongo" (by decide) (by decide) (by decide),
   derive_cost_port_table.2.2.2.2.2.2.2.1 "xlarge" "mongo" (by decide) (by decide) (by decide)⟩

/-- C10: on an existing pending request, any action other than exactly
`'approve'` — `'reject'`, `'cancel'`, the empty string, anything —
succeeds and sets the request to `'rejected'`, recording approver,
notes and `approved_at`; no validation restricts the action string. -/
theorem decide_unrecognized_action_rejects (a : ApprovalAction) (hex8 : String) (now : Nat)
    (s : Store) (r : Request)
    (hfind : s.db_requests.find? (fun x => x.request_id == a.request_id) = some r)
    (hpend : r.status = "pending") (hact : a.action ≠ "approve") :
    (process_approval a hex8 now s).1 =
      Except.ok { request_id := a.request_id, status := "rejected",
                  message := "Request rejected successfully" } ∧
    ∀ r' ∈ (process_approval a hex8 now s).2.db_requests,
      r'.request_id = a.request_id →
        r'.status = "rejected" ∧ r'.approver = some a.approver ∧
        r'.approval_notes = a.notes ∧ r'.approved_at = some now := by
  have hbeq : (a.action == "approve") = false := by simp [hact]
  rw [process_approval_reject_eq a hex8 now s r hfind hpend hact]
  refine ⟨rfl, ?_⟩
  apply forall_updateWhere
  · intro x _ _ _
    refine ⟨?_, rfl, rfl, rfl⟩
    simp [decisionUpd, hbeq]
  · intro x _ hpx hid
    rw [hid] at hpx
    simp at hpx

/-- C10 witness: the theorem at the actions `'cancel'` and `''`. -/
theorem decide_unrecognized_action_rejects_witness :
    (process_approval (appr0 "cancel") "deadbeef" 5 store0).1 =
      Except.ok { request_id := "r1", status := "rejected",
                  message := "Request rejected successfully" } ∧
    (process_approval (appr0 "") "deadbeef" 5 store0).1 =
      Except.ok { request_id := "r1", status := "rejected",
                  message := "Request rejected successfully" } :=
  ⟨(decide_unrecognized_action_rejects (appr0 "cancel") "deadbeef" 5 store0 req0
      (by decide) (by decide) (by decide)).1,
   (decide_unrecognized_action_rejects (appr0 "") "deadbeef" 5 store0 req0
      (by decide) (by decide) (by decide)).1⟩

/-- C4: once a decide call has succeeded on a request id, any second
decide call on that id — whatever either action was — fails with the
400 error whose message names the status the first call stored
(`'provisioned'` after an approve, `'rejected'` otherwise), and the
second call leaves the store exactly as the first call left it. -/
theorem second_decide_invalid_transition (a1 a2 : ApprovalAction) (h1 h2 : String)
    (t1 t2 : Nat) (s : Store) (res : DecideResult)
    (hsame : a2.request_id = a1.request_id)
    (hok : (process_approval a1 h1 t1 s).1 = Except.ok res) :
    process_approval a2 h2 t2 (process_approval a1 h1 t1 s).2 =
      (Except.error (ApiError.httpException 400 ("Request already " ++
         (if a1.action = "approve" then "provisioned" else "rejected"))),
       (process_approval a1 h1 t1 s).2) := by
  obtain ⟨r, hfind, hpend⟩ := process_approval_ok_pending a1 h1 t1 s res hok
  by_cases hact : a1.action = "approve"
  · rw [if_pos hact]
    have heq := process_approval_approve_eq a1 h1 t1 s r hfind hpend hact
    simp only [heq]
    unfold process_approval checkPhase
    simp only [hsame]
    rw [find?_updateWhere (fun x => x.request_id == a1.request_id) (provisionUpd t1)
          (fun x h => h),
        find?_updateWhere (fun x => x.request_id == a1.request_id) (decisionUpd a1 t1)
          (fun x h => h),
        hfind]
    simp [provisionUpd]
  · rw [if_neg hact]
    have heq := process_approval_reject_eq a1 h1 t1 s r hfind hpend hact
    have hbeq : (a1.action == "approve") = false := by simp [hact]
    simp only [heq]
    unfold process_approval checkPhase
    simp only [hsame]
    rw [find?_updateWhere (fun x => x.request_id == a1.request_id) (decisionUpd a1 t1)
          (fun x h => h),
        hfind]
    simp [decisionUpd, hbeq]

/-- C4 witness: approve then reject on the same id. -/
theorem second_decide_invalid_transition_witness :
    process_approval (appr0 "reject") "ffffffff" 9
        (process_approval (appr0 "approve") "deadbeef" 5 store0).2 =
      (Except.error (ApiError.httpException 400 "Request already provisioned"),
       (process_approval (appr0 "approve") "deadbeef" 5 store0).2) :=
  second_decide_invalid_transition (appr0 "approve") (appr0 "reject") "deadbeef" "ffffffff"
    5 9 store0
    { request_id := "r1", status := "approved", message := "Request approved successfully" }
    rfl rfl

/-- C5: decide with `approve` on a pending request appends exactly one
new `ProvisionedDatabase` row — linked to the request, status
`'active'`, host the fixed constant, name
`{team}_{environment}_{db_type}_{hex8}` with `hex8` the 8-hex-char
random suffix, cost and port from the deriver — while decide with
`reject` sets the request to `'rejected'` and appends no row. -/
theorem decide_provisioning_side_effects (a : ApprovalAction) (hex8 : String) (now : Nat)
    (s : Store) (r : Request)
    (hfind : s.db_requests.find? (fun x => x.request_id == a.request_id) = some r)
    (hpend : r.status = "pending")
    (hlen : hex8.length = 8) (hhex : isHexString hex8) :
    (a.action = "approve" →
      (process_approval a hex8 now s).2.provisioned_databases =
        s.provisioned_databases ++ [newDbRecord a hex8 now s r] ∧
      (newDbRecord a hex8 now s r).request_id = a.request_id ∧
      (newDbRecord a hex8 now s r).status = "active" ∧
      (newDbRecord a hex8 now s r).host = "db-cluster.example.com" ∧
      (∃ suffix, suffix.length = 8 ∧ isHexString suffix ∧
        (newDbRecord a hex8 now s r).db_name =
          r.team_name ++ "_" ++ r.environment ++ "_" ++ r.db_type ++ "_" ++ suffix) ∧
      derive r.size r.db_type =
        ((newDbRecord a hex8 now s r).estimated_cost, (newDbRecord a hex8 now s r).port)) ∧
    (a.action ≠ "approve" →
      (process_approval a hex8 now s).2.provisioned_databases = s.provisioned_databases ∧
      ∀ r' ∈ (process_approval a hex8 now s).2.db_requests,
        r'.request_id = a.request_id → r'.status = "rejected") := by
  constructor
  · intro hact
    rw [process_approval_approve_eq a hex8 now s r hfind hpend hact]
    exact ⟨rfl, rfl, rfl, rfl, ⟨hex8, hlen, hhex, rfl⟩, rfl⟩
  · intro hact
    rw [process_approval_reject_eq a hex8 now s r hfind hpend hact]
    have hbeq : (a.action == "approve") = false := by simp [hact]
    refine ⟨rfl, ?_⟩
    apply forall_updateWhere
    · intro x _ _ _
      simp [decisionUpd, hbeq]
    · intro x _ hpx hid
      rw [hid] at hpx
      simp at hpx

/-- C5 witness: the approve branch at the concrete pending request. -/
theorem decide_provisioning_side_effects_witness :
    (process_approval (appr0 "approve") "deadbeef" 5 store0).2.provisioned_databases =
      store0.provisioned_databases ++ [newDbRecord (appr0 "approve") "deadbeef" 5 store0 req0] ∧
    (newDbRecord (appr0 "approve") "deadbeef" 5 store0 req0).request_id = "r1" ∧
    (newDbRecord (appr0 "approve") "deadbeef" 5 store0 req0).status = "active" ∧
    (newDbRecord (appr0 "approve") "deadbeef" 5 store0 req0).host = "db-cluster.example.com" ∧
    (∃ suffix, suffix.length = 8 ∧ isHexString suffix ∧
      (newDbRecord (appr0 "approve") "deadbeef" 5 store0 req0).db_name =
        "data-eng" ++ "_" ++ "prod" ++ "_" ++ "postgres" ++ "_" ++ suffix) ∧
    derive "large" "postgres" =
      ((newDbRecord (appr0 "approve") "deadbeef" 5 store0 req0).estimated_cost,
       (newDbRecord (appr0 "approve") "deadbeef" 5 store0 req0).port) :=
  (decide_provisioning_side_effects (appr0 "approve") "deadbeef" 5 store0 req0
    (by decide) (by decide) (by decide) (by decide)).1 (by decide)

/-- C8: each operation preserves the per-request invariant — status is
one of the four lifecycle states, `approved_at` is non-null iff the
request has been decided, `provisioned_at` is non-null iff it is
provisioned.  Covers `create_request` (submit), `process_approval`
(decide, including its inline provisioning), and `_provision_database`
run on any store whose matching rows have been decided (the only way
the code ever invokes it).  Request ids are assumed distinct, as the
`PRIMARY KEY` on `db_requests.request_id` guarantees. -/
theorem operations_preserve_request_invariant (s : Store)
    (hinv : storeInvariant s)
    (hnodup : (s.db_requests.map Request.request_id).Nodup) :
    (∀ req rid now, storeInvariant (create_request req rid now s).2) ∧
    (∀ a hex8 now, storeInvariant (process_approval a hex8 now s).2) ∧
    (∀ rid hex8 now s2 s3, storeInvariant s2 →
      (∀ r ∈ s2.db_requests, r.request_id = rid → r.approved_at ≠ none) →
      _provision_database rid hex8 now s2 = some s3 → storeInvariant s3) := by
  refine ⟨?_, ?_, ?_⟩
  · intro req rid now x hx
    simp only [create_request] at hx
    rcases List.mem_append.mp hx with h | h
    · exact hinv x h
    · simp only [List.mem_singleton] at h
      subst h
      simp [reqInvariant]
  · intro a hex8 now
    cases hfind : s.db_requests.find? (fun x => x.request_id == a.request_id) with
    | none =>
      unfold process_approval checkPhase
      rw [hfind]
      exact hinv
    | some r =>
      have hrmem : r ∈ s.db_requests := List.mem_of_find?_eq_some hfind
      have hrid : r.request_id = a.request_id := by
        simpa using List.find?_some hfind
      by_cases hpend : r.status = "pending"
      · by_cases hact : a.action = "approve"
        · rw [process_approval_approve_eq a hex8 now s r hfind hpend hact]
          intro x hx
          rcases mem_updateWhere_cases _ _ _ x hx with ⟨y, hy, hpy, hxe⟩ | ⟨y, hy, hpy, hxe⟩
          · rw [hxe]
            rcases mem_updateWhere_cases _ _ _ y hy with ⟨z, hz, hpz, hye⟩ | ⟨z, hz, hpz, hye⟩
            · rw [hye]
              simp [provisionUpd, decisionUpd, reqInvariant]
            · rw [hye] at hpy
              simp [hpy] at hpz
          · rw [hxe]
            rcases mem_updateWhere_cases _ _ _ y hy with ⟨z, hz, hpz, hye⟩ | ⟨z, hz, hpz, hye⟩
            · rw [hye] at hpy
              have hfalse : (z.request_id == a.request_id) = false := hpy
              simp [hfalse] at hpz
            · rw [hye]
              exact hinv z hz
        · rw [process_approval_reject_eq a hex8 now s r hfind hpend hact]
          have hbeq : (a.action == "approve") = false := by simp [hact]
          have hpnone : r.provisioned_at = none := by
            rcases hinv r hrmem with ⟨_, _, hprov⟩
            by_contra hne
            have hcontra := hprov.mp hne
            rw [hpend] at hcontra
            simp at hcontra
          intro x hx
          rcases mem_updateWhere_cases _ _ _ x hx with ⟨y, hy, hpy, hxe⟩ | ⟨y, hy, hpy, hxe⟩
          · rw [hxe]
            have hyid : y.request_id = a.request_id := by simpa using hpy
            have hyr : y = r :=
              List.inj_on_of_nodup_map hnodup hy hrmem (by rw [hyid, hrid])
            rw [hyr]
            simp [decisionUpd, reqInvariant, hbeq, hpnone]
          · rw [hxe]
            exact hinv y hy
      · unfold process_approval checkPhase
        rw [hfind]
        simp [hpend]
        exact hinv
  · intro rid hex8 now s2 s3 hinv2 happ hps
    unfold _provision_database at hps
    cases hfind2 : s2.db_requests.find? (fun r => r.request_id == rid) with
    | none => rw [hfind2] at hps; simp at hps
    | some r =>
      rw [hfind2] at hps
      simp only [Option.some.injEq] at hps
      subst hps
      intro x hx
      rcases mem_updateWhere_cases _ _ _ x hx with ⟨y, hy, hpy, hxe⟩ | ⟨y, hy, hpy, hxe⟩
      · rw [hxe]
        have hyid : y.request_id = rid := by simpa using hpy
        have hyapp : y.approved_at ≠ none := happ y hy hyid
        rcases hya : y.approved_at with _ | v
        · exact absurd hya hyapp
        · simp [reqInvariant, hya]
      · rw [hxe]
        exact hinv2 y hy

/-- C8 witness: the invariant after a submit and after a full approve
on the concrete store. -/
theorem operations_preserve_request_invariant_witness :
    storeInvariant (create_request
      { team_name := "t", db_type := "postgres", environment := "dev", size := "small",
        purpose := "p" } "r9" 3 store0).2 ∧
    storeInvariant (process_approval (appr0 "approve") "deadbeef" 5 store0).2 :=
  ⟨(operations_preserve_request_invariant store0 (by decide) (by decide)).1
      { team_name := "t", db_type := "postgres", environment := "dev", size := "small",
        purpose := "p" } "r9" 3,
   (operations_preserve_request_invariant store0 (by decide) (by decide)).2.1
      (appr0 "approve") "deadbeef" 5⟩

/-- C9 (counterexample): as stated the claim is false for the
empty-string filter.  Python's `if status:` treats `""` like an absent
filter, so `get_requests` with filter `""` returns rows whose status is
not `""` — not "exactly the requests whose status equals the filter"
(which would be none). -/
theorem list_requests_empty_filter_counterexample :
    get_requests (some "") store0 = [rowOf req0] ∧
    (rowOf req0).status = "pending" ∧
    ("pending" : String) ≠ "" ∧
    (store0.db_requests.filter (fun r => r.status == "")).map rowOf = [] :=
  ⟨rfl, rfl, by decide, rfl⟩

/-- C9 (amended): with a non-empty status filter, `get_requests`
returns exactly the stored requests with that status (a permutation of
the filtered table, no cap); with no filter it returns at most 50 rows
forming a prefix of the whole table sorted most-recently-created first;
both results are ordered by `created_at` descending.  The operation is
a pure function of the store, so it has no side effects.  (An
empty-string filter behaves like an absent filter.) -/
theorem list_requests_filtered_and_capped (s : Store) (st : String) (hst : st ≠ "") :
    (get_requests (some st) s).Perm
      ((s.db_requests.filter (fun r => r.status == st)).map rowOf) ∧
    sortedDesc (get_requests (some st) s) ∧
    (get_requests none s).length ≤ 50 ∧
    sortedDesc (get_requests none s) ∧
    (get_requests none s) <+: ((orderByCreatedDesc s.db_requests).map rowOf) ∧
    (orderByCreatedDesc s.db_requests).Perm s.db_requests := by
  have hsome : get_requests (some st) s =
      (orderByCreatedDesc (s.db_requests.filter (fun r => r.status == st))).map rowOf := by
    simp [get_requests, hst]
  refine ⟨?_, ?_, ?_, ?_, ?_, ?_⟩
  · rw [hsome]
    exact (List.perm_insertionSort _ _).map rowOf
  · rw [hsome]
    unfold sortedDesc List.Sorted
    rw [List.pairwise_map]
    exact List.sorted_insertionSort (fun a b : Request => b.created_at ≤ a.created_at) _
  · simp [get_requests, orderByCreatedDesc]
  · show sortedDesc (((orderByCreatedDesc s.db_requests).take 50).map rowOf)
    unfold sortedDesc List.Sorted
    rw [List.pairwise_map]
    exact List.Pairwise.sublist (List.take_sublist 50 _)
      (List.sorted_insertionSort (fun a b : Request => b.created_at ≤ a.created_at)
        s.db_requests)
  · show (((orderByCreatedDesc s.db_requests).take 50).map rowOf) <+:
      ((orderByCreatedDesc s.db_requests).map rowOf)
    exact (List.take_prefix 50 _).map rowOf
  · exact List.perm_insertionSort _ _

/-- C9 witness: the amended theorem at `store0` with filter
`"pending"`. -/
theorem list_requests_filtered_and_capped_witness :
    (get_requests (some "pending") store0).Perm
      ((store0.db_requests.filter (fun r => r.status == "pending")).map rowOf) ∧
    sortedDesc (get_requests (some "pending") store0) ∧
    (get_requests none store0).length ≤ 50 :=
  ⟨(list_requests_filtered_and_capped store0 "pending" (by decide)).1,
   (list_requests_filtered_and_capped store0 "pending" (by decide)).2.1,
   (list_requests_filtered_and_capped store0 "pending" (by decide)).2.2.1⟩

/-- C7 witness: decide on unknown id `"zzz"` against `store0`. -/
theorem decide_unknown_id_not_found_witness :
    process_approval { request_id := "zzz", action := "approve", approver := "a@b.com",
                       notes := none } "deadbeef" 5 store0 =
      (Except.error (ApiError.httpException 404 "Request not found"), store0) :=
  decide_unknown_id_not_found _ "deadbeef" 5 store0 (by decide)

end Provisioning
